import Mathlib

/-!
Shallow embedding of the `python_automation` repository
(`build_automation.py`, `ci_integration.py`, `deploy_to_k8s.py`).

External effects (subprocess invocations of pytest / docker / git, the
filesystem state of the JSON config file, and the wall clock) are modelled
by an explicit `World` record fixing the outcome of each external call;
each embedded function additionally returns the ordered list of external
commands it issued and the lines it printed, so that temporal/fail-fast
claims about which stages run can be stated as facts about those traces.
-/

namespace PyAuto

/-- A JSON-like value: the shape of the Python dicts the program builds
(`deployment`, `service`, the parsed config file, build metadata). -/
inductive JVal where
  | str : String → JVal
  | nat : Nat → JVal
  | arr : List JVal → JVal
  | obj : List (String × JVal) → JVal
deriving Repr

/-- Key lookup in an association list of JSON object fields. -/
def lookupKey : List (String × JVal) → String → Option JVal
  | [], _ => none
  | (k, v) :: rest, key => if k = key then some v else lookupKey rest key

/-- `d[k]` on a JSON object; `none` when the key is absent or `d` is not an object. -/
def JVal.get : JVal → String → Option JVal
  | .obj kvs, k => lookupKey kvs k
  | _, _ => none

/-- `d[i]` on a JSON array. -/
def JVal.idx : JVal → Nat → Option JVal
  | .arr xs, i => xs.get? i
  | _, _ => none

/-- Follow a path of object keys. -/
def getPath (j : JVal) : List String → Option JVal
  | [] => some j
  | k :: ks => match j.get k with
    | some v => getPath v ks
    | none => none

/-- The keys of `build_config.json` that the program reads
(`self.config.get(...)` call sites); a key absent from the file is `none`.
`env_vars` is inserted into the manifest verbatim, so it is kept as raw JSON. -/
structure Config where
  build_dir : Option String := none
  app_name : Option String := none
  docker_registry : Option String := none
  port : Option Nat := none
  replicas : Option Nat := none
  env_vars : Option (List JVal) := none
deriving Repr

/-- Errors the Python code can raise during configuration handling:
`json.JSONDecodeError` from `load_config` on a malformed present file, and
`ValueError` from `int()` in `setup_ci_config`.  The spec's taxonomy calls
both `ConfigurationError`. -/
inductive ConfigError where
  | jsonDecodeError : ConfigError
  | valueError : String → ConfigError
deriving Repr, DecidableEq

/-- State of the `build_config.json` file: missing, present but not valid
JSON, or present with parsed content `cfg`. -/
inductive FileState where
  | missing : FileState
  | malformed : FileState
  | valid : Config → FileState

/-- Outcome of the `pytest` subprocess in `run_tests`: exit 0, non-zero exit
(`CalledProcessError`), or executable absent (`FileNotFoundError`). -/
inductive PytestOutcome where
  | passed | failed | notFound
deriving Repr, DecidableEq

/-- Outcomes of every external call the pipeline can make.  A `Bool` field is
`true` when the corresponding `subprocess.run(..., check=True)` exits 0.
`gitShortHead` is the stripped stdout of `git rev-parse --short HEAD` when
that call succeeds, `none` when it fails; `timestamp` models
`datetime.now().strftime('%Y%m%d%H%M%S')`; `gitCommitFull` / `gitBranchRef`
model the stdout of the two uncheck'd git calls in `get_git_info`, with
`gitAvailable = false` modelling a raised `FileNotFoundError` there. -/
structure World where
  gitShortHead : Option String := none
  timestamp : String := ""
  pytest : PytestOutcome := .passed
  dockerBuild : Bool := true
  dockerTagLatest : Bool := true
  dockerTagRegistry : Bool := true
  dockerPush : Bool := true
  gitAvailable : Bool := true
  gitCommitFull : String := ""
  gitBranchRef : String := ""

/-- External commands, recorded in the order the program issues them. -/
inductive Cmd where
  | gitRevParseShortHead : Cmd
  | gitRevParseHead : Cmd
  | gitRevParseAbbrevRef : Cmd
  | pytestRun : Cmd
  | dockerBuildCmd : String → Cmd
  | dockerTagCmd : String → String → Cmd
  | dockerPushCmd : String → Cmd
deriving Repr, DecidableEq

/-- The pipeline steps of `run_build`, in source order. -/
inductive Step where
  | runTests | buildDockerImage | pushToRegistry | generateManifests | createBuildMetadata
deriving Repr, DecidableEq

/-- Result, issued external commands, and printed lines of one method call. -/
structure Out (α : Type) where
  result : α
  cmds : List Cmd
  logs : List String
deriving Repr

/-- `BuildAutomation.load_config`: a missing file is tolerated (warning, `{}`
defaults); a present file is parsed, and a parse failure propagates
(`json.JSONDecodeError` is not caught). -/
def load_config : FileState → Out (Except ConfigError Config)
  | .missing =>
      ⟨.ok {}, [], ["⚠️  Config file build_config.json not found, using defaults"]⟩
  | .malformed => ⟨.error .jsonDecodeError, [], []⟩
  | .valid cfg => ⟨.ok cfg, [], []⟩

/-- `BuildAutomation.get_version`: short git commit hash, else timestamp. -/
def get_version (w : World) : Out String :=
  match w.gitShortHead with
  | some h => ⟨h, [.gitRevParseShortHead], []⟩
  | none => ⟨w.timestamp, [.gitRevParseShortHead], []⟩

/-- The state `BuildAutomation.__init__` establishes: the loaded config and
the derived `app_name`, `version`, `build_dir` attributes. -/
structure Builder where
  config : Config
  app_name : String
  version : String
  build_dir : String
deriving Repr

/-- `BuildAutomation.__init__`: load the config file, then derive
`build_dir`, `app_name` and `version`; a config parse error propagates and
no builder is constructed. -/
def initBuilder (fs : FileState) (w : World) : Out (Except ConfigError Builder) :=
  let lc := load_config fs
  match lc.result with
  | .error e => ⟨.error e, lc.cmds, lc.logs⟩
  | .ok cfg =>
    let gv := get_version w
    ⟨.ok ⟨cfg, cfg.app_name.getD "myapp", gv.result, cfg.build_dir.getD "build"⟩,
      lc.cmds ++ gv.cmds, lc.logs ++ gv.logs⟩

/-- `BuildAutomation.run_tests`: pass on exit 0, fail on non-zero exit,
pass-with-warning when pytest is not installed. -/
def run_tests (w : World) : Out Bool :=
  match w.pytest with
  | .passed => ⟨true, [.pytestRun], ["🧪 Running unit tests...", "✅ Tests passed!"]⟩
  | .failed => ⟨false, [.pytestRun], ["🧪 Running unit tests...", "❌ Tests failed! Build aborted."]⟩
  | .notFound => ⟨true, [.pytestRun], ["🧪 Running unit tests...", "⚠️  pytest not found, skipping tests"]⟩

/-- `BuildAutomation.build_docker_image`: build `{app_name}:{version}`, then
tag it `{app_name}:latest`; a `CalledProcessError` from either command is
caught and `None` is returned. -/
def build_docker_image (b : Builder) (w : World) : Out (Option String) :=
  let image_tag := b.app_name ++ ":" ++ b.version
  let header := "🐳 Building Docker image: " ++ image_tag
  if w.dockerBuild then
    if w.dockerTagLatest then
      ⟨some image_tag,
        [.dockerBuildCmd image_tag, .dockerTagCmd image_tag (b.app_name ++ ":latest")],
        [header, "✅ Docker image built: " ++ image_tag]⟩
    else
      ⟨none, [.dockerBuildCmd image_tag, .dockerTagCmd image_tag (b.app_name ++ ":latest")],
        [header, "❌ Docker build failed"]⟩
  else
    ⟨none, [.dockerBuildCmd image_tag], [header, "❌ Docker build failed"]⟩

/-- `BuildAutomation.push_to_registry`: tag `image_tag` as
`{registry}/{image_tag}` and push it; a `CalledProcessError` from either
command is caught and `None` is returned. -/
def push_to_registry (b : Builder) (w : World) (image_tag : String) : Out (Option String) :=
  let registry := b.config.docker_registry.getD "localhost:5000"
  let full_image := registry ++ "/" ++ image_tag
  let header := "📤 Pushing image to registry: " ++ full_image
  if w.dockerTagRegistry then
    if w.dockerPush then
      ⟨some full_image,
        [.dockerTagCmd image_tag full_image, .dockerPushCmd full_image],
        [header, "✅ Image pushed: " ++ full_image]⟩
    else
      ⟨none, [.dockerTagCmd image_tag full_image, .dockerPushCmd full_image],
        [header, "❌ Failed to push image"]⟩
  else
    ⟨none, [.dockerTagCmd image_tag full_image], [header, "❌ Failed to push image"]⟩

/-- The `deployment` dict literal of
`BuildAutomation.generate_kubernetes_manifests`, transcribed key by key. -/
def deploymentManifest (b : Builder) (image_name : String) : JVal :=
  .obj [
    ("apiVersion", .str "apps/v1"),
    ("kind", .str "Deployment"),
    ("metadata", .obj [
      ("name", .str (b.app_name ++ "-deployment")),
      ("labels", .obj [("app", .str b.app_name)])]),
    ("spec", .obj [
      ("replicas", .nat (b.config.replicas.getD 3)),
      ("selector", .obj [("matchLabels", .obj [("app", .str b.app_name)])]),
      ("template", .obj [
        ("metadata", .obj [
          ("labels", .obj [("app", .str b.app_name), ("version", .str b.version)])]),
        ("spec", .obj [
          ("containers", .arr [.obj [
            ("name", .str b.app_name),
            ("image", .str image_name),
            ("ports", .arr [.obj [("containerPort", .nat (b.config.port.getD 8000))]]),
            ("env", .arr (b.config.env_vars.getD [])),
            ("resources", .obj [
              ("requests", .obj [("memory", .str "256Mi"), ("cpu", .str "250m")]),
              ("limits", .obj [("memory", .str "512Mi"), ("cpu", .str "500m")])])]])])])])]

/-- The `service` dict literal of
`BuildAutomation.generate_kubernetes_manifests`, transcribed key by key. -/
def serviceManifest (b : Builder) : JVal :=
  .obj [
    ("apiVersion", .str "v1"),
    ("kind", .str "Service"),
    ("metadata", .obj [("name", .str (b.app_name ++ "-service"))]),
    ("spec", .obj [
      ("selector", .obj [("app", .str b.app_name)]),
      ("ports", .arr [.obj [
        ("protocol", .str "TCP"),
        ("port", .nat 80),
        ("targetPort", .nat (b.config.port.getD 8000))]]),
      ("type", .str "LoadBalancer")])]

/-- `BuildAutomation.generate_kubernetes_manifests`: build both dicts and
write them to `build_dir` (the write is external I/O; the descriptors are
the observable content). -/
def generate_kubernetes_manifests (b : Builder) (image_name : String) : Out (JVal × JVal) :=
  ⟨(deploymentManifest b image_name, serviceManifest b),
    [],
    ["📝 Generating Kubernetes manifests...", "✅ Manifests generated in " ++ b.build_dir ++ "/"]⟩

/-- `BuildAutomation.get_git_info`: two uncheck'd git calls; any raised
error (e.g. git absent) yields `{}`. -/
def get_git_info (w : World) : Out JVal :=
  if w.gitAvailable then
    ⟨.obj [("commit", .str w.gitCommitFull), ("branch", .str w.gitBranchRef)],
      [.gitRevParseHead, .gitRevParseAbbrevRef], []⟩
  else
    ⟨.obj [], [.gitRevParseHead], []⟩

/-- `BuildAutomation.create_build_metadata`: the metadata dict written to
`build_metadata.json`; `build_time` comes from the wall clock. -/
def create_build_metadata (b : Builder) (w : World) (image_name : String) : Out JVal :=
  let gi := get_git_info w
  ⟨.obj [
      ("app_name", .str b.app_name),
      ("version", .str b.version),
      ("image", .str image_name),
      ("build_time", .str w.timestamp),
      ("git_commit", gi.result)],
    gi.cmds,
    gi.logs ++ ["✅ Build metadata saved to " ++ b.build_dir ++ "/build_metadata.json"]⟩

/-- Outcome of one `run_build` invocation: the returned boolean, the pipeline
steps entered in order, the external commands issued, the printed lines, the
pushed artifact reference (when one was returned) and the generated
manifests (when that stage ran). -/
structure BuildOut where
  success : Bool
  steps : List Step
  cmds : List Cmd
  logs : List String
  artifact : Option String
  manifests : Option (JVal × JVal)
deriving Repr

/-- `BuildAutomation.run_build`: tests, docker build, registry push, manifest
generation, build metadata — each `False`/`None` result returns immediately,
skipping every later step. -/
def run_build (b : Builder) (w : World) : BuildOut :=
  let header := "🚀 Starting build for " ++ b.app_name ++ " v" ++ b.version
  let t := run_tests w
  if t.result then
    let bi := build_docker_image b w
    match bi.result with
    | none =>
      ⟨false, [.runTests, .buildDockerImage], t.cmds ++ bi.cmds,
        header :: (t.logs ++ bi.logs), none, none⟩
    | some image_tag =>
      let pu := push_to_registry b w image_tag
      match pu.result with
      | none =>
        ⟨false, [.runTests, .buildDockerImage, .pushToRegistry],
          t.cmds ++ bi.cmds ++ pu.cmds, header :: (t.logs ++ bi.logs ++ pu.logs), none, none⟩
      | some full_image =>
        let gm := generate_kubernetes_manifests b full_image
        let md := create_build_metadata b w full_image
        ⟨true,
          [.runTests, .buildDockerImage, .pushToRegistry, .generateManifests, .createBuildMetadata],
          t.cmds ++ bi.cmds ++ pu.cmds ++ gm.cmds ++ md.cmds,
          header :: (t.logs ++ bi.logs ++ pu.logs ++ gm.logs ++ md.logs
            ++ ["✅ Build completed successfully!",
                "📦 Artifact: " ++ full_image,
                "📁 Build directory: " ++ b.build_dir ++ "/"]),
          some full_image, some gm.result⟩
  else
    ⟨false, [.runTests], t.cmds, header :: t.logs, none, none⟩

/-- The process environment variables `ci_integration.py` reads; a variable
absent from the environment is `none`. -/
structure Env where
  jenkinsHome : Option String := none
  gitlabCI : Option String := none
  githubActions : Option String := none
  appName : Option String := none
  dockerRegistry : Option String := none
  appPort : Option String := none
  replicasVar : Option String := none
  gitBranch : Option String := none
  ciCommitBranch : Option String := none

/-- Python truthiness of an `os.getenv` result: set and non-empty. -/
def truthy : Option String → Bool
  | some s => s ≠ ""
  | none => false

/-- `get_ci_environment`: first matching platform signal, else `local`. -/
def get_ci_environment (env : Env) : String :=
  if truthy env.jenkinsHome then "jenkins"
  else if truthy env.gitlabCI then "gitlab"
  else if truthy env.githubActions then "github"
  else "local"

/-- Value of a non-empty all-decimal-digit character list; `none` otherwise. -/
def digitsVal : List Char → Option Nat
  | [] => none
  | ds =>
    if ds.all Char.isDigit then
      some (ds.foldl (fun a c => a * 10 + (c.toNat - 48)) 0)
    else none

/-- Python `int()` on a string, for the decimal forms the program meets:
optional surrounding whitespace, optional sign, decimal digits; anything
else raises `ValueError` (`none`).  (Underscore separators and non-ASCII
digits are accepted by Python but never arise here.) -/
def pyInt (s : String) : Option Int :=
  let t := ((s.data.dropWhile Char.isWhitespace).reverse.dropWhile Char.isWhitespace).reverse
  match t with
  | '-' :: ds => (digitsVal ds).map (fun n => -(n : Int))
  | '+' :: ds => (digitsVal ds).map (fun n => (n : Int))
  | ds => (digitsVal ds).map (fun n => (n : Int))

/-- The config dict built by `setup_ci_config`. -/
structure CIConfig where
  app_name : String
  docker_registry : String
  port : Int
  replicas : Int
deriving Repr, DecidableEq

/-- `setup_ci_config`: the dict literal evaluates `int(APP_PORT)` then
`int(REPLICAS)`; a `ValueError` from either propagates before the dict (or
the platform banner print) exists. -/
def setup_ci_config (env : Env) : Out (Except ConfigError CIConfig) :=
  let ci_env := get_ci_environment env
  match pyInt (env.appPort.getD "8000") with
  | none => ⟨.error (.valueError "invalid literal for int() with base 10"), [], []⟩
  | some p =>
    match pyInt (env.replicasVar.getD "3") with
    | none => ⟨.error (.valueError "invalid literal for int() with base 10"), [], []⟩
    | some r =>
      ⟨.ok ⟨env.appName.getD "myapp", env.dockerRegistry.getD "localhost:5000", p, r⟩,
        [], ["🔧 Running in " ++ ci_env ++ " environment"]⟩

/-- `os.getenv('GIT_BRANCH', os.getenv('CI_COMMIT_BRANCH', 'unknown'))`. -/
def branchOf (env : Env) : String :=
  env.gitBranch.getD (env.ciCommitBranch.getD "unknown")

/-- Observable outcome of `ci_integration.main`: process exit status and the
pipeline steps, external commands and printed lines of the whole run. -/
structure MainOut where
  exitCode : Nat
  steps : List Step
  cmds : List Cmd
  logs : List String
deriving Repr

/-- `ci_integration.main`: branch filter first; only on `main`/`master` is a
`BuildAutomation` constructed and `run_build` invoked; any other branch
exits 0 at once.  An uncaught `ConfigError` from construction propagates. -/
def ciMain (env : Env) (fs : FileState) (w : World) : Except ConfigError MainOut :=
  let branch := branchOf env
  let l0 := "🌿 Building branch: " ++ branch
  if branch = "main" ∨ branch = "master" then
    let ib := initBuilder fs w
    match ib.result with
    | .error e => .error e
    | .ok b =>
      let out := run_build b w
      if out.success then
        .ok ⟨0, out.steps, ib.cmds ++ out.cmds,
          l0 :: (ib.logs ++ out.logs ++ ["✅ CI/CD build successful"])⟩
      else
        .ok ⟨1, out.steps, ib.cmds ++ out.cmds,
          l0 :: (ib.logs ++ out.logs ++ ["❌ CI/CD build failed"])⟩
  else
    .ok ⟨0, [], [], [l0, "ℹ️  Skipping build for branch: " ++ branch]⟩

/-- The first (only) container spec of a deployment descriptor. -/
def firstContainer (d : JVal) : Option JVal :=
  (getPath d ["spec", "template", "spec", "containers"]).bind (fun c => c.idx 0)

/-- A field of the first container spec. -/
def containerField (d : JVal) (k : String) : Option JVal :=
  (firstContainer d).bind (fun c => c.get k)

/-- The `containerPort` of the first port of the first container. -/
def containerPortOf (d : JVal) : Option JVal :=
  ((containerField d "ports").bind (fun p => p.idx 0)).bind (fun p => p.get "containerPort")

/-- The end-to-end `local` scenario: no CI platform, no config file, and
`git rev-parse --short HEAD` printing `abc1234`. -/
def localW : World :=
  { gitShortHead := some "abc1234", timestamp := "20250101000000" }

/-- The builder `BuildAutomation.__init__` constructs in the local scenario. -/
def localBuilderOpt : Option Builder :=
  (initBuilder FileState.missing localW).result.toOption

/-- C2 (amended): for every configuration and artifact reference, the
container spec of the generated deployment descriptor carries the
configuration's `env_vars` verbatim (empty by default), the fixed resource
requests 256Mi/250m and limits 512Mi/500m, no liveness or readiness probe,
the given image, the configured container port (default 8000), and the
configured replica count (default 3). -/
theorem deployment_container_spec (b : Builder) (image : String) :
    containerField (deploymentManifest b image) "env"
        = some (JVal.arr (b.config.env_vars.getD [])) ∧
    containerField (deploymentManifest b image) "resources"
        = some (JVal.obj [
            ("requests", .obj [("memory", .str "256Mi"), ("cpu", .str "250m")]),
            ("limits", .obj [("memory", .str "512Mi"), ("cpu", .str "500m")])]) ∧
    containerField (deploymentManifest b image) "livenessProbe" = none ∧
    containerField (deploymentManifest b image) "readinessProbe" = none ∧
    containerField (deploymentManifest b image) "image" = some (JVal.str image) ∧
    containerPortOf (deploymentManifest b image) = some (JVal.nat (b.config.port.getD 8000)) ∧
    getPath (deploymentManifest b image) ["spec", "replicas"]
        = some (JVal.nat (b.config.replicas.getD 3)) :=
  ⟨rfl, rfl, rfl, rfl, rfl, rfl, rfl⟩

/-- C2 counterexample: with the default (empty) configuration the generated
container spec has an empty `env` list — no `ENVIRONMENT=production` and no
`VERSION` variable — and carries no liveness or readiness probe at all, so
the claimed probe timings do not exist. -/
theorem deployment_container_spec_cex :
    containerField (deploymentManifest ⟨{}, "myapp", "1.0.0", "build"⟩ "img") "env"
        = some (JVal.arr []) ∧
    containerField (deploymentManifest ⟨{}, "myapp", "1.0.0", "build"⟩ "img") "livenessProbe"
        = none ∧
    containerField (deploymentManifest ⟨{}, "myapp", "1.0.0", "build"⟩ "img") "readinessProbe"
        = none :=
  ⟨rfl, rfl, rfl⟩

/-- C3 (amended): in the local scenario (no config file, git short hash
`abc1234`, all external tools succeeding) the builder resolves
`version = "abc1234"` and `app_name = "myapp"`, the pushed artifact
reference is `localhost:5000/myapp:abc1234`, and the generated deployment
descriptor has 3 replicas, container port 8000 and no liveness probe. -/
theorem local_scenario_end_to_end :
    localBuilderOpt.map (fun b =>
      (b.version, b.app_name,
        (run_build b localW).success,
        (run_build b localW).artifact,
        (run_build b localW).manifests.map (fun ms =>
          (getPath ms.1 ["spec", "replicas"],
            containerPortOf ms.1,
            containerField ms.1 "livenessProbe"))))
      = some ("abc1234", "myapp", true, some "localhost:5000/myapp:abc1234",
          some (some (JVal.nat 3), some (JVal.nat 8000), none)) :=
  rfl

/-- C3 counterexample: in that same scenario the deployment descriptor
contains no liveness probe, so the claimed `initial delay 30` is absent. -/
theorem local_scenario_cex :
    localBuilderOpt.map (fun b =>
      (run_build b localW).manifests.map (fun ms => containerField ms.1 "livenessProbe"))
      = some (some none) :=
  rfl

/-- C10: the generated manifests are internally consistent — the service
selector equals the deployment selector's `matchLabels`, both equal
`{app: app_name}`, the pod template's `app` label is `app_name`, and the
service `targetPort` equals the container's `containerPort`. -/
theorem manifest_pair_consistent (b : Builder) (image : String) :
    getPath (serviceManifest b) ["spec", "selector"]
        = getPath (deploymentManifest b image) ["spec", "selector", "matchLabels"] ∧
    getPath (serviceManifest b) ["spec", "selector"]
        = some (JVal.obj [("app", JVal.str b.app_name)]) ∧
    (getPath (deploymentManifest b image) ["spec", "template", "metadata", "labels"]).bind
        (fun l => l.get "app") = some (JVal.str b.app_name) ∧
    ((getPath (serviceManifest b) ["spec", "ports"]).bind (fun p => p.idx 0)).bind
        (fun p => p.get "targetPort")
      = containerPortOf (deploymentManifest b image) :=
  ⟨rfl, rfl, rfl, rfl⟩

/-- C1: `run_build` is fail-fast — a failed test gate stops the pipeline at
`run_tests`; a failed image build stops it before `push_to_registry`; a
failed registry push stops it before manifest generation; in every such
case the pipeline reports failure and neither `generate_kubernetes_manifests`
nor `create_build_metadata` is ever invoked. -/
theorem run_build_fail_fast (b : Builder) (w : World) :
    ((run_tests w).result = false →
        (run_build b w).success = false ∧ (run_build b w).steps = [Step.runTests]) ∧
    ((run_tests w).result = true → (build_docker_image b w).result = none →
        (run_build b w).success = false ∧
        (run_build b w).steps = [Step.runTests, Step.buildDockerImage] ∧
        Step.generateManifests ∉ (run_build b w).steps ∧
        Step.createBuildMetadata ∉ (run_build b w).steps) ∧
    (∀ t : String, (run_tests w).result = true → (build_docker_image b w).result = some t →
        (push_to_registry b w t).result = none →
        (run_build b w).success = false ∧
        (run_build b w).steps = [Step.runTests, Step.buildDockerImage, Step.pushToRegistry] ∧
        Step.generateManifests ∉ (run_build b w).steps ∧
        Step.createBuildMetadata ∉ (run_build b w).steps) := by
  obtain ⟨gsh, ts, pt, db, dtl, dtr, dp, ga, gc, gb⟩ := w
  cases pt <;> cases db <;> cases dtl <;> cases dtr <;> cases dp <;>
    simp [run_tests, run_build, build_docker_image, push_to_registry,
      generate_kubernetes_manifests, create_build_metadata, get_git_info]

/-- C1 witness: with a failing `docker push` the pipeline reports failure,
stops after `push_to_registry`, and never reaches manifest generation or
build metadata. -/
theorem run_build_fail_fast_witness :
    (run_build ⟨{}, "myapp", "1.0.0", "build"⟩ { dockerPush := false }).success = false ∧
    (run_build ⟨{}, "myapp", "1.0.0", "build"⟩ { dockerPush := false }).steps
      = [Step.runTests, Step.buildDockerImage, Step.pushToRegistry] ∧
    Step.generateManifests ∉ (run_build ⟨{}, "myapp", "1.0.0", "build"⟩ { dockerPush := false }).steps ∧
    Step.createBuildMetadata ∉ (run_build ⟨{}, "myapp", "1.0.0", "build"⟩ { dockerPush := false }).steps :=
  (run_build_fail_fast ⟨{}, "myapp", "1.0.0", "build"⟩ { dockerPush := false }).2.2
    "myapp:1.0.0" rfl rfl rfl

/-- C6: publishing runs its docker sub-steps in the fixed order build,
tag-latest, tag-for-registry, push; the first failing sub-step truncates the
remaining ones and logs a message naming the failing stage; no sub-step
after a failed image build is ever issued by `run_build`; and an artifact
reference `{registry}/{app_name}:{version}` is returned only by a fully
successful publish. -/
theorem publish_substeps (b : Builder) (w : World) :
    (∀ t : String, (build_docker_image b w).result = some t →
        t = b.app_name ++ ":" ++ b.version ∧
        (build_docker_image b w).cmds
          = [Cmd.dockerBuildCmd t, Cmd.dockerTagCmd t (b.app_name ++ ":latest")]) ∧
    (∀ t r : String, (push_to_registry b w t).result = some r →
        r = (b.config.docker_registry.getD "localhost:5000") ++ "/" ++ t ∧
        (push_to_registry b w t).cmds = [Cmd.dockerTagCmd t r, Cmd.dockerPushCmd r]) ∧
    (w.dockerBuild = false →
        (build_docker_image b w).result = none ∧
        (build_docker_image b w).cmds = [Cmd.dockerBuildCmd (b.app_name ++ ":" ++ b.version)] ∧
        "❌ Docker build failed" ∈ (build_docker_image b w).logs) ∧
    (w.dockerBuild = true → w.dockerTagLatest = false →
        (build_docker_image b w).result = none ∧
        "❌ Docker build failed" ∈ (build_docker_image b w).logs) ∧
    (∀ t : String, w.dockerTagRegistry = false →
        (push_to_registry b w t).result = none ∧
        (push_to_registry b w t).cmds
          = [Cmd.dockerTagCmd t ((b.config.docker_registry.getD "localhost:5000") ++ "/" ++ t)] ∧
        "❌ Failed to push image" ∈ (push_to_registry b w t).logs) ∧
    (∀ t : String, w.dockerTagRegistry = true → w.dockerPush = false →
        (push_to_registry b w t).result = none ∧
        "❌ Failed to push image" ∈ (push_to_registry b w t).logs) ∧
    ((build_docker_image b w).result = none →
        (∀ t r, Cmd.dockerTagCmd t r ∈ (run_build b w).cmds →
            Cmd.dockerTagCmd t r ∈ (build_docker_image b w).cmds) ∧
        (∀ r, Cmd.dockerPushCmd r ∉ (run_build b w).cmds) ∧
        (run_build b w).artifact = none) ∧
    (∀ r : String, (run_build b w).artifact = some r →
        r = (b.config.docker_registry.getD "localhost:5000") ++ "/"
            ++ b.app_name ++ ":" ++ b.version ∧
        (run_build b w).success = true) := by
  obtain ⟨gsh, ts, pt, db, dtl, dtr, dp, ga, gc, gb⟩ := w
  cases pt <;> cases db <;> cases dtl <;> cases dtr <;> cases dp <;> cases ga <;>
    simp [run_tests, run_build, build_docker_image, push_to_registry,
      generate_kubernetes_manifests, create_build_metadata, get_git_info,
      String.append_assoc]

/-- C6 witness: with a failing `docker build` the publish returns no
artifact reference, only the build command was issued, and the failure log
names the docker-build stage. -/
theorem publish_substeps_witness :
    (build_docker_image ⟨{}, "myapp", "1.0.0", "build"⟩ { dockerBuild := false }).result = none ∧
    (build_docker_image ⟨{}, "myapp", "1.0.0", "build"⟩ { dockerBuild := false }).cmds
      = [Cmd.dockerBuildCmd ("myapp" ++ ":" ++ "1.0.0")] ∧
    "❌ Docker build failed"
      ∈ (build_docker_image ⟨{}, "myapp", "1.0.0", "build"⟩ { dockerBuild := false }).logs :=
  (publish_substeps ⟨{}, "myapp", "1.0.0", "build"⟩ { dockerBuild := false }).2.2.1 rfl

/-- C8: an absent pytest executable makes `run_tests` succeed with the
documented warning, and the pipeline then proceeds into the docker-build
(Publishing) stage; the test gate fails exactly when pytest is present and
exits non-zero. -/
theorem test_gate_tolerates_missing_tool (b : Builder) (w : World) :
    (w.pytest = PytestOutcome.notFound →
        (run_tests w).result = true ∧
        "⚠️  pytest not found, skipping tests" ∈ (run_tests w).logs ∧
        Step.buildDockerImage ∈ (run_build b w).steps ∧
        "⚠️  pytest not found, skipping tests" ∈ (run_build b w).logs) ∧
    ((run_tests w).result = false ↔ w.pytest = PytestOutcome.failed) := by
  obtain ⟨gsh, ts, pt, db, dtl, dtr, dp, ga, gc, gb⟩ := w
  cases pt <;> cases db <;> cases dtl <;> cases dtr <;> cases dp <;>
    simp [run_tests, run_build, build_docker_image, push_to_registry,
      generate_kubernetes_manifests, create_build_metadata, get_git_info]

/-- C8 witness: with pytest absent (and docker succeeding) the test gate
passes with the warning and the docker-build stage is entered. -/
theorem test_gate_tolerates_missing_tool_witness :
    (run_tests { pytest := PytestOutcome.notFound }).result = true ∧
    "⚠️  pytest not found, skipping tests"
      ∈ (run_tests { pytest := PytestOutcome.notFound }).logs ∧
    Step.buildDockerImage
      ∈ (run_build ⟨{}, "myapp", "1.0.0", "build"⟩ { pytest := PytestOutcome.notFound }).steps ∧
    "⚠️  pytest not found, skipping tests"
      ∈ (run_build ⟨{}, "myapp", "1.0.0", "build"⟩ { pytest := PytestOutcome.notFound }).logs :=
  (test_gate_tolerates_missing_tool ⟨{}, "myapp", "1.0.0", "build"⟩
    { pytest := PytestOutcome.notFound }).1 rfl

/-- C4: whenever `APP_PORT` or `REPLICAS` does not parse as an integer,
`setup_ci_config` fails with the `int()` error (the spec's
`ConfigurationError`) and returns no configuration record at all. -/
theorem setup_ci_config_bad_numeric (env : Env)
    (h : pyInt (env.appPort.getD "8000") = none ∨ pyInt (env.replicasVar.getD "3") = none) :
    ∃ msg, (setup_ci_config env).result = Except.error (ConfigError.valueError msg) := by
  unfold setup_ci_config
  rcases hp : pyInt (env.appPort.getD "8000") with _ | p
  · exact ⟨_, rfl⟩
  · rcases hr : pyInt (env.replicasVar.getD "3") with _ | r
    · exact ⟨_, rfl⟩
    · rcases h with h | h
      · exact absurd hp (h ▸ fun hc => Option.noConfusion hc)
      · exact absurd hr (h ▸ fun hc => Option.noConfusion hc)

/-- C4 witness: `APP_PORT="abc"` fails configuration resolution. -/
theorem setup_ci_config_bad_numeric_witness :
    ∃ msg, (setup_ci_config { appPort := some "abc" }).result
      = Except.error (ConfigError.valueError msg) :=
  setup_ci_config_bad_numeric { appPort := some "abc" } (Or.inl rfl)

/-- C5: a missing `build_config.json` is non-fatal — `load_config` warns and
returns the empty config, and the constructed builder carries the documented
defaults — while a present-but-malformed file fails `load_config` (and hence
builder construction) with the JSON parse error, which the spec names
`ConfigurationError`, instead of being replaced by defaults. -/
theorem load_config_missing_vs_malformed :
    (load_config FileState.missing).result = Except.ok ({} : Config) ∧
    "⚠️  Config file build_config.json not found, using defaults"
      ∈ (load_config FileState.missing).logs ∧
    (load_config FileState.malformed).result = Except.error ConfigError.jsonDecodeError ∧
    (∀ w : World,
        (initBuilder FileState.malformed w).result = Except.error ConfigError.jsonDecodeError) ∧
    (∀ w : World,
        ((initBuilder FileState.missing w).result.toOption.map
            (fun b => (b.config, b.app_name, b.build_dir)))
          = some ({}, "myapp", "build")) :=
  ⟨rfl, by simp [load_config], rfl, fun _ => rfl, fun _ => rfl⟩

/-- C7: on any branch other than `main`/`master`, `main` exits 0 having
entered no pipeline step and issued no external command — the run is
skipped before the builder (Init) is even constructed. -/
theorem ci_main_skips_other_branches (env : Env) (fs : FileState) (w : World)
    (h1 : branchOf env ≠ "main") (h2 : branchOf env ≠ "master") :
    ciMain env fs w = Except.ok ⟨0, [], [],
      ["🌿 Building branch: " ++ branchOf env,
       "ℹ️  Skipping build for branch: " ++ branchOf env]⟩ := by
  simp [ciMain, h1, h2]

/-- C7 witness: branch `feature/x` is skipped with exit status 0, no steps
and no external commands. -/
theorem ci_main_skips_other_branches_witness :
    ciMain { gitBranch := some "feature/x" } FileState.missing {} = Except.ok ⟨0, [], [],
      ["🌿 Building branch: " ++ branchOf { gitBranch := some "feature/x" },
       "ℹ️  Skipping build for branch: " ++ branchOf { gitBranch := some "feature/x" }]⟩ :=
  ci_main_skips_other_branches { gitBranch := some "feature/x" } FileState.missing {}
    (by decide) (by decide)

/-- C9: the CI entry point's behaviour depends on the process environment
only through `GIT_BRANCH`/`CI_COMMIT_BRANCH` — two environments agreeing on
those two variables (and on the config file and external world) yield
identical runs, however they differ in `JENKINS_HOME`, `GITLAB_CI`,
`GITHUB_ACTIONS`, `APP_NAME`, `DOCKER_REGISTRY`, `APP_PORT` and `REPLICAS`,
because `main` never consults the configuration `setup_ci_config` derives
from them. -/
theorem ci_main_env_noninterference (env1 env2 : Env) (fs : FileState) (w : World)
    (h1 : env1.gitBranch = env2.gitBranch)
    (h2 : env1.ciCommitBranch = env2.ciCommitBranch) :
    ciMain env1 fs w = ciMain env2 fs w := by
  have hb : branchOf env1 = branchOf env2 := by unfold branchOf; rw [h1, h2]
  simp only [ciMain, hb]

/-- C9 witness: an environment full of platform signals and overrides
(including an unparsable `APP_PORT`) runs identically to a bare one with the
same branch variables. -/
theorem ci_main_env_noninterference_witness :
    ciMain { gitBranch := some "main", jenkinsHome := some "/var/jenkins",
             gitlabCI := some "true", githubActions := some "true",
             appName := some "other", dockerRegistry := some "reg.example",
             appPort := some "abc", replicasVar := some "99" }
        FileState.missing { gitShortHead := some "abc1234" }
      = ciMain { gitBranch := some "main" }
          FileState.missing { gitShortHead := some "abc1234" } :=
  ci_main_env_noninterference
    { gitBranch := some "main", jenkinsHome := some "/var/jenkins",
      gitlabCI := some "true", githubActions := some "true",
      appName := some "other", dockerRegistry := some "reg.example",
      appPort := some "abc", replicasVar := some "99" }
    { gitBranch := some "main" }
    FileState.missing { gitShortHead := some "abc1234" } rfl rfl

end PyAuto
